import Mathlib

/-!
Shallow embedding of the javascript-ai-agent repository: the seed pipeline
(`seedDatabase` with its zod schema, structured-output parser and summarizer)
and the chat surface (`sendMessage` of `ChatApp`).  External capabilities
(LLM response, embedding provider, per-write success) are parameters of the
model; the control flow and data handling are translated from the source.
-/

/-- The `FrontendPrinciple` record, from `FrontendPrincipleSchema` (zod). -/
structure FrontendPrinciple where
  principle_id : String
  name : String
  description : String
  keyConcepts : List String
  designGuidelines : List String
  commonPitfalls : List String
  bestPractices : List String
  relevantTechnologies : List String
  notes : String
deriving DecidableEq, Repr

/-- Untyped JSON-like values, the candidate input to schema validation. -/
inductive Json where
  | null : Json
  | bool : Bool → Json
  | num : Int → Json
  | str : String → Json
  | arr : List Json → Json
  | obj : List (String × Json) → Json

/-- First binding of a key in a JSON object (JS object field lookup). -/
def lookupField : List (String × Json) → String → Option Json
  | [], _ => none
  | (k, v) :: rest, key => if k = key then some v else lookupField rest key

/-- `z.string()`: accepts exactly JSON strings, no coercion. -/
def asString : Json → Option String
  | Json.str s => some s
  | _ => none

/-- All-or-nothing element validation of a JSON list (zod array semantics). -/
def parseAllStrings : List Json → Option (List String)
  | [] => some []
  | x :: xs => (asString x).bind fun s => (parseAllStrings xs).map fun ss => s :: ss

/-- Field lookup that must yield a string (`z.string()` on an object field). -/
def getStr (fs : List (String × Json)) (key : String) : Option String :=
  match lookupField fs key with
  | some j => asString j
  | none => none

/-- Field lookup that must yield an array of strings (`z.array(z.string())`). -/
def getStrList (fs : List (String × Json)) (key : String) : Option (List String) :=
  match lookupField fs key with
  | some (Json.arr xs) => parseAllStrings xs
  | _ => none

/-- `FrontendPrincipleSchema.parse`: every required field present with the
declared type, values taken verbatim (zod strips unknown keys, coerces
nothing). -/
def parseFrontendPrinciple : Json → Option FrontendPrinciple
  | Json.obj fs =>
    (getStr fs "principle_id").bind fun pid =>
    (getStr fs "name").bind fun nm =>
    (getStr fs "description").bind fun ds =>
    (getStrList fs "keyConcepts").bind fun kc =>
    (getStrList fs "designGuidelines").bind fun dg =>
    (getStrList fs "commonPitfalls").bind fun cp =>
    (getStrList fs "bestPractices").bind fun bp =>
    (getStrList fs "relevantTechnologies").bind fun rt =>
    (getStr fs "notes").bind fun nt =>
    some ⟨pid, nm, ds, kc, dg, cp, bp, rt, nt⟩
  | _ => none

/-- All-or-nothing validation of a record batch (zod array semantics). -/
def parseAllRecords : List Json → Option (List FrontendPrinciple)
  | [] => some []
  | x :: xs =>
    (parseFrontendPrinciple x).bind fun r =>
    (parseAllRecords xs).map fun rs => r :: rs

/-- `z.array(FrontendPrincipleSchema).parse`: the container must be an array
and every element must validate. -/
def parseFrontendPrincipleArray : Json → Option (List FrontendPrinciple)
  | Json.arr items => parseAllRecords items
  | _ => none

/-- `generateSyntheticData`: one LLM call; the response is either not JSON
(`none`) or some JSON value, which the structured-output parser routes
through the array schema.  Any failure surfaces as `none` (a thrown
parse/generation error). -/
def generateSyntheticData (modelResponse : Option Json) :
    Option (List FrontendPrinciple) :=
  modelResponse.bind parseFrontendPrincipleArray

/-- `createFrontendPrincipleSummary`, field for field from the source
template literals. -/
def createFrontendPrincipleSummary (principle : FrontendPrinciple) : String :=
  let basics := principle.name ++ " (" ++ principle.principle_id ++ "): " ++
    principle.description
  let concepts := "Key Concepts: " ++ String.intercalate ", " principle.keyConcepts
  let guidelines := "Design Guidelines: " ++
    String.intercalate ", " principle.designGuidelines
  let pitfalls := "Common Pitfalls: " ++
    String.intercalate ", " principle.commonPitfalls
  let practices := "Best Practices: " ++
    String.intercalate ", " principle.bestPractices
  let technologies := "Technologies: " ++
    String.intercalate ", " principle.relevantTechnologies
  basics ++ ". " ++ concepts ++ ". " ++ guidelines ++ ". " ++ pitfalls ++ ". " ++
    practices ++ ". " ++ technologies ++ ". Notes: " ++ principle.notes

/-- Rendering of one list field, following the spec wording
"Label: comma-joined items". -/
def renderListField (label : String) (items : List String) : String :=
  label ++ ": " ++ String.intercalate ", " items

/-- Modelled from the spec wording of the Summarizer contract: name+id+
description, then each list field as "Label: comma-joined items", then
notes, in fixed order. -/
def summarizeSpec (r : FrontendPrinciple) : String :=
  (r.name ++ " (" ++ r.principle_id ++ "): " ++ r.description) ++ ". " ++
  renderListField "Key Concepts" r.keyConcepts ++ ". " ++
  renderListField "Design Guidelines" r.designGuidelines ++ ". " ++
  renderListField "Common Pitfalls" r.commonPitfalls ++ ". " ++
  renderListField "Best Practices" r.bestPractices ++ ". " ++
  renderListField "Technologies" r.relevantTechnologies ++ ". Notes: " ++ r.notes

/-- A well-shaped JSON object for a record, field names as in the schema. -/
def recordToJson (r : FrontendPrinciple) : Json :=
  Json.obj
    [("principle_id", Json.str r.principle_id),
     ("name", Json.str r.name),
     ("description", Json.str r.description),
     ("keyConcepts", Json.arr (r.keyConcepts.map Json.str)),
     ("designGuidelines", Json.arr (r.designGuidelines.map Json.str)),
     ("commonPitfalls", Json.arr (r.commonPitfalls.map Json.str)),
     ("bestPractices", Json.arr (r.bestPractices.map Json.str)),
     ("relevantTechnologies", Json.arr (r.relevantTechnologies.map Json.str)),
     ("notes", Json.str r.notes)]

/-- The spec's end-to-end example record. -/
def exampleRecord : FrontendPrinciple :=
  ⟨"p1", "Consistency", "...", ["A", "B"], ["G1"], [], ["BP1"], ["Tech1"], "n"⟩

/-- A second concrete record, used for multi-record runs. -/
def exampleRecord2 : FrontendPrinciple :=
  ⟨"p2", "Feedback", "d2", ["C"], [], ["P1"], [], ["Tech2"], "n2"⟩

/-- A document persisted by `MongoDBAtlasVectorSearch.fromDocuments`:
`textKey` holds the page content, `embeddingKey` the vector computed from
that content, and the document metadata is spread alongside. -/
structure StoredDoc where
  embedding_text : String
  embedding : List Int
  metadata : FrontendPrinciple
deriving DecidableEq, Repr

/-- Observable steps of a `seedDatabase` run. -/
inductive Ev where
  | connect
  | ping
  | clear
  | generate
  | write (k : Nat)
  | disconnect
deriving DecidableEq, Repr

/-- What the outer `catch` of `seedDatabase` logs, by failure point. -/
inductive SeedErr where
  | connectionError
  | generationError
  | writeError (k : Nat)
deriving DecidableEq, Repr

/-- Environment of one `seedDatabase` run: outcomes of the external calls.
`modelResponse` is the LLM reply parsed as JSON (`none`: the call failed or
returned non-JSON text); `embed` is the embedding capability; `stepFails k`
says whether the embed-or-write call for the k-th record throws. -/
structure SeedEnv where
  connectOk : Bool
  pingOk : Bool
  modelResponse : Option Json
  embed : String → List Int
  stepFails : Nat → Bool

/-- Result of one `seedDatabase` run: the trace of completed steps, the
final contents of the `principles` collection, and the error swallowed by
the outer `catch`, if any.  The run itself always resolves. -/
structure SeedOutcome where
  events : List Ev
  store : List StoredDoc
  loggedError : Option SeedErr
deriving Repr

/-- The per-record loop of `seedDatabase`: for each (pageContent, record)
pair in order, one `fromDocuments` call embeds the page content and inserts
the document; the first failing call throws out of the loop.  Returns the
inserted documents, the write events, and the escaped error if any. -/
def writeLoop (embed : String → List Int) (stepFails : Nat → Bool) :
    List (String × FrontendPrinciple) → Nat →
    List StoredDoc × List Ev × Option SeedErr
  | [], _ => ([], [], none)
  | (text, r) :: rest, k =>
    if stepFails k then ([], [], some (SeedErr.writeError k))
    else
      let out := writeLoop embed stepFails rest (k + 1)
      (⟨text, embed text, r⟩ :: out.1, Ev.write k :: out.2.1, out.2.2)

/-- `seedDatabase`: connect, ping, `deleteMany({})`, generate, summarize all
records, then the sequential write loop; any thrown error is caught and
logged, and the client is closed in `finally`.  `init` is the collection's
prior contents. -/
def seedDatabase (env : SeedEnv) (init : List StoredDoc) : SeedOutcome :=
  if env.connectOk = false then
    ⟨[Ev.disconnect], init, some SeedErr.connectionError⟩
  else if env.pingOk = false then
    ⟨[Ev.connect, Ev.disconnect], init, some SeedErr.connectionError⟩
  else
    match generateSyntheticData env.modelResponse with
    | none =>
      ⟨[Ev.connect, Ev.ping, Ev.clear, Ev.generate, Ev.disconnect], [],
        some SeedErr.generationError⟩
    | some records =>
      let recordsWithSummaries :=
        records.map fun r => (createFrontendPrincipleSummary r, r)
      let out := writeLoop env.embed env.stepFails recordsWithSummaries 0
      ⟨[Ev.connect, Ev.ping, Ev.clear, Ev.generate] ++ out.2.1 ++ [Ev.disconnect],
        out.1, out.2.2⟩

/-- Message roles in the chat transcript. -/
inductive Sender where
  | user
  | agent
deriving DecidableEq, Repr

/-- One transcript entry; `text` is `none` when a JS `undefined` leaks in. -/
structure ChatMessage where
  sender : Sender
  text : Option String
deriving DecidableEq, Repr

/-- Parsed body of a chat response (`data` in the source). -/
structure ChatData where
  threadId : Option String
  response : Option String
deriving DecidableEq, Repr

/-- Outcome of the `fetch` call: a network error (the promise rejects), or
a response with an HTTP status and a body that either parses as JSON or
does not (`response.json()` rejects). -/
inductive FetchOutcome where
  | networkError
  | response (status : Nat) (body : Option ChatData)
deriving DecidableEq, Repr

/-- React state of `ChatApp`. -/
structure ChatState where
  messages : List ChatMessage
  input : String
  threadId : Option String
  isLoading : Bool
deriving DecidableEq, Repr

/-- JS truthiness of a string-or-absent value: absent and "" are falsy. -/
def truthyStr : Option String → Bool
  | none => false
  | some s => !(s = "")

/-- JS `String.prototype.trim`: strip whitespace from both ends. -/
def jsTrim (s : String) : String :=
  String.mk
    (((s.data.dropWhile Char.isWhitespace).reverse.dropWhile
      Char.isWhitespace).reverse)

/-- `sendMessage` of `ChatApp` as a state transition on one fetch outcome:
append the user's trimmed message, clear the input, set loading; on a
parsed response store a fresh threadId when there was none and append the
agent reply; any thrown error (network or JSON-parse) appends the fallback
message; `finally` resets loading. -/
def sendMessage (st : ChatState) (outcome : FetchOutcome) : ChatState :=
  let trimmedMessage := jsTrim st.input
  if trimmedMessage = "" then st
  else
    let st1 : ChatState :=
      { st with
        messages := st.messages ++ [⟨Sender.user, some trimmedMessage⟩],
        input := "", isLoading := true }
    match outcome with
    | FetchOutcome.networkError =>
      { st1 with
        messages := st1.messages ++
          [⟨Sender.agent, some "Sorry, there was an error."⟩],
        isLoading := false }
    | FetchOutcome.response _ none =>
      { st1 with
        messages := st1.messages ++
          [⟨Sender.agent, some "Sorry, there was an error."⟩],
        isLoading := false }
    | FetchOutcome.response _ (some data) =>
      let st2 : ChatState :=
        if !truthyStr st1.threadId && truthyStr data.threadId then
          { st1 with threadId := data.threadId }
        else st1
      { st2 with
        messages := st2.messages ++ [⟨Sender.agent, data.response⟩],
        isLoading := false }

/-- How many times the trace releases the store connection. -/
def countDisconnect : List Ev → Nat
  | [] => 0
  | Ev.disconnect :: rest => countDisconnect rest + 1
  | _ :: rest => countDisconnect rest

/-- Stub embedding capability: a "hash" of its input (here, its length). -/
def hashEmbed : String → List Int := fun s => [(s.length : Int)]

/-- Run with two valid records whose first write fails. -/
def envC1 : SeedEnv :=
  ⟨true, true,
    some (Json.arr [recordToJson exampleRecord, recordToJson exampleRecord2]),
    hashEmbed, fun k => k == 0⟩

/-- Fully successful run generating one valid record. -/
def envOk : SeedEnv :=
  ⟨true, true, some (Json.arr [recordToJson exampleRecord]), hashEmbed,
    fun _ => false⟩

/-- Run whose model response is an empty array. -/
def envEmptyBatch : SeedEnv :=
  ⟨true, true, some (Json.arr []), hashEmbed, fun _ => false⟩

/-- Run whose model response fails to parse as a record array. -/
def envGenFail : SeedEnv :=
  ⟨true, true, some (Json.str "no json array"), hashEmbed, fun _ => false⟩

/-- An unrelated pre-existing document in the collection. -/
def d0 : StoredDoc := ⟨"old", [(0 : Int)], exampleRecord2⟩

/-- The document `envOk`'s run writes for the example record. -/
def docOk : StoredDoc :=
  ⟨createFrontendPrincipleSummary exampleRecord,
    hashEmbed (createFrontendPrincipleSummary exampleRecord), exampleRecord⟩

/-- Initial chat state: empty transcript, input "hi". -/
def st0 : ChatState := ⟨[], "hi", none, false⟩

/-- A non-2xx backend response with a parseable JSON body. -/
def badOutcome : FetchOutcome :=
  FetchOutcome.response 500 (some ⟨none, some "oops"⟩)

lemma countDisconnect_append (l1 l2 : List Ev) :
    countDisconnect (l1 ++ l2) = countDisconnect l1 + countDisconnect l2 := by
  induction l1 with
  | nil => simp [countDisconnect]
  | cons e rest ih =>
    cases e <;> simp [countDisconnect, ih]
    omega

lemma writeLoop_countDisconnect (embed : String → List Int)
    (stepFails : Nat → Bool) :
    ∀ (pairs : List (String × FrontendPrinciple)) (k : Nat),
      countDisconnect (writeLoop embed stepFails pairs k).2.1 = 0 := by
  intro pairs
  induction pairs with
  | nil => intro k; simp [writeLoop, countDisconnect]
  | cons pr rest ih =>
    intro k
    obtain ⟨text, r⟩ := pr
    by_cases h : stepFails k
    · simp [writeLoop, h, countDisconnect]
    · simp [writeLoop, h, countDisconnect, ih]

lemma parseAllStrings_map_str (l : List String) :
    parseAllStrings (l.map Json.str) = some l := by
  induction l with
  | nil => rfl
  | cons s rest ih => simp [parseAllStrings, asString, ih, Option.bind]

lemma parse_recordToJson (r : FrontendPrinciple) :
    parseFrontendPrinciple (recordToJson r) = some r := by
  simp [recordToJson, parseFrontendPrinciple, getStr, getStrList, lookupField,
    asString, parseAllStrings_map_str]

lemma parseFrontendPrinciple_obj_some (fs : List (String × Json))
    (p : FrontendPrinciple) (h : parseFrontendPrinciple (Json.obj fs) = some p) :
    getStr fs "principle_id" = some p.principle_id ∧
    getStr fs "name" = some p.name ∧
    getStr fs "description" = some p.description ∧
    getStrList fs "keyConcepts" = some p.keyConcepts ∧
    getStrList fs "designGuidelines" = some p.designGuidelines ∧
    getStrList fs "commonPitfalls" = some p.commonPitfalls ∧
    getStrList fs "bestPractices" = some p.bestPractices ∧
    getStrList fs "relevantTechnologies" = some p.relevantTechnologies ∧
    getStr fs "notes" = some p.notes := by
  simp only [parseFrontendPrinciple, Option.bind_eq_some, Option.some_inj] at h
  obtain ⟨pid, h1, nm, h2, ds, h3, kc, h4, dg, h5, cp, h6, bp, h7, rt, h8, nt,
    h9, heq⟩ := h
  subst heq
  exact ⟨h1, h2, h3, h4, h5, h6, h7, h8, h9⟩

lemma parseAllRecords_mem_none (items : List Json) (x : Json)
    (hx : x ∈ items) (hfail : parseFrontendPrinciple x = none) :
    parseAllRecords items = none := by
  induction items with
  | nil => cases hx
  | cons y rest ih =>
    rcases List.mem_cons.mp hx with rfl | hmem
    · simp [parseAllRecords, hfail]
    · cases hy : parseFrontendPrinciple y with
      | none => simp [parseAllRecords, hy]
      | some r => simp [parseAllRecords, hy, ih hmem]

lemma parseAllRecords_all_some (items : List Json)
    (h : ∀ x ∈ items, (parseFrontendPrinciple x).isSome = true) :
    ∃ rs, parseAllRecords items = some rs ∧ rs.length = items.length := by
  induction items with
  | nil => exact ⟨[], rfl, rfl⟩
  | cons y rest ih =>
    have hy := h y (List.mem_cons_self y rest)
    cases hyv : parseFrontendPrinciple y with
    | none => rw [hyv] at hy; cases hy
    | some r =>
      obtain ⟨rs, hrs, hlen⟩ := ih fun x hx => h x (List.mem_cons_of_mem y hx)
      exact ⟨r :: rs, by simp [parseAllRecords, hyv, hrs], by simp [hlen]⟩

lemma writeLoop_store_mem (embed : String → List Int) (stepFails : Nat → Bool) :
    ∀ (pairs : List (String × FrontendPrinciple)) (k : Nat)
      (d : StoredDoc), d ∈ (writeLoop embed stepFails pairs k).1 →
      ∃ pr ∈ pairs, d = ⟨pr.1, embed pr.1, pr.2⟩ := by
  intro pairs
  induction pairs with
  | nil => intro k d hd; simp [writeLoop] at hd
  | cons pr rest ih =>
    intro k d hd
    obtain ⟨text, r⟩ := pr
    cases hsf : stepFails k with
    | true => simp [writeLoop, hsf] at hd
    | false =>
      simp only [writeLoop, hsf, Bool.false_eq_true, if_false, List.mem_cons] at hd
      rcases hd with heq | hd
      · exact ⟨(text, r), List.mem_cons_self _ _, heq⟩
      · obtain ⟨pr2, hpr2, heq⟩ := ih (k + 1) d hd
        exact ⟨pr2, List.mem_cons_of_mem _ hpr2, heq⟩

lemma writeLoop_fail (embed : String → List Int) (stepFails : Nat → Bool) :
    ∀ (pairs : List (String × FrontendPrinciple)) (k d : Nat),
      d < pairs.length → stepFails (k + d) = true →
      (∀ j, j < d → stepFails (k + j) = false) →
      (writeLoop embed stepFails pairs k).1 =
        (pairs.take d).map (fun pr => ⟨pr.1, embed pr.1, pr.2⟩) ∧
      (writeLoop embed stepFails pairs k).2.2 =
        some (SeedErr.writeError (k + d)) := by
  intro pairs
  induction pairs with
  | nil => intro k d hd; simp at hd
  | cons pr rest ih =>
    intro k d hd hf hmin
    obtain ⟨text, r⟩ := pr
    cases d with
    | zero =>
      have hk : stepFails k = true := by simpa using hf
      simp [writeLoop, hk]
    | succ d2 =>
      have hk : stepFails k = false := by
        have := hmin 0 (Nat.succ_pos d2)
        simpa using this
      have hd2 : d2 < rest.length := by
        have hlen : ((text, r) :: rest).length = rest.length + 1 := rfl
        omega
      have hf2 : stepFails (k + 1 + d2) = true := by
        rw [show k + 1 + d2 = k + (d2 + 1) by omega]
        exact hf
      have hrec := ih (k + 1) d2 hd2 hf2
        (fun j hj => by
          rw [show k + 1 + j = k + (j + 1) by omega]
          exact hmin (j + 1) (Nat.succ_lt_succ hj))
      have h3 : k + 1 + d2 = k + (d2 + 1) := by omega
      constructor
      · simp [writeLoop, hk, hrec.1, List.take_succ_cons]
      · simp [writeLoop, hk, hrec.2, h3]

lemma writeLoop_ok (embed : String → List Int) (stepFails : Nat → Bool) :
    ∀ (pairs : List (String × FrontendPrinciple)) (k : Nat),
      (∀ j, stepFails j = false) →
      (writeLoop embed stepFails pairs k).1 =
        pairs.map (fun pr => ⟨pr.1, embed pr.1, pr.2⟩) ∧
      (writeLoop embed stepFails pairs k).2.2 = none := by
  intro pairs
  induction pairs with
  | nil => intro k hok; simp [writeLoop]
  | cons pr rest ih =>
    intro k hok
    obtain ⟨text, r⟩ := pr
    have hrec := ih (k + 1) hok
    simp [writeLoop, hok k, hrec.1, hrec.2]

lemma seedDatabase_run (env : SeedEnv) (init : List StoredDoc)
    (records : List FrontendPrinciple)
    (hc : env.connectOk = true) (hp : env.pingOk = true)
    (hg : generateSyntheticData env.modelResponse = some records) :
    seedDatabase env init =
      ⟨[Ev.connect, Ev.ping, Ev.clear, Ev.generate] ++
        (writeLoop env.embed env.stepFails
          (records.map fun r => (createFrontendPrincipleSummary r, r)) 0).2.1 ++
        [Ev.disconnect],
       (writeLoop env.embed env.stepFails
          (records.map fun r => (createFrontendPrincipleSummary r, r)) 0).1,
       (writeLoop env.embed env.stepFails
          (records.map fun r => (createFrontendPrincipleSummary r, r)) 0).2.2⟩ := by
  simp [seedDatabase, hc, hp, hg]

/-- C1: false as stated — with two valid generated records and record 0's
embed-or-write failing, record 1 is never written: the final store is
empty, so the pipeline does not complete the writes of the remaining
records. -/
theorem seed_per_record_failure_counterexample :
    generateSyntheticData envC1.modelResponse =
      some [exampleRecord, exampleRecord2] ∧
    envC1.stepFails 0 = true ∧ envC1.stepFails 1 = false ∧
    (seedDatabase envC1 []).store = [] ∧
    StoredDoc.mk (createFrontendPrincipleSummary exampleRecord2)
      (envC1.embed (createFrontendPrincipleSummary exampleRecord2))
      exampleRecord2 ∉ (seedDatabase envC1 []).store := by
  decide

/-- C1 (amended): when the embed-or-write step first fails at record k, the
records before k stay written, the loop stops (later records are not
attempted), the failure is caught and logged inside `seedDatabase` (so it
never escapes the call, which still resolves and disconnects); there is no
SeedReport. -/
theorem seed_write_failure_stops_loop (env : SeedEnv) (init : List StoredDoc)
    (records : List FrontendPrinciple) (k : Nat)
    (hc : env.connectOk = true) (hp : env.pingOk = true)
    (hg : generateSyntheticData env.modelResponse = some records)
    (hk : k < records.length) (hf : env.stepFails k = true)
    (hmin : ∀ j, j < k → env.stepFails j = false) :
    (seedDatabase env init).store =
      (records.take k).map (fun r =>
        ⟨createFrontendPrincipleSummary r,
          env.embed (createFrontendPrincipleSummary r), r⟩) ∧
    (seedDatabase env init).loggedError = some (SeedErr.writeError k) ∧
    Ev.disconnect ∈ (seedDatabase env init).events := by
  rw [seedDatabase_run env init records hc hp hg]
  have hwl := writeLoop_fail env.embed env.stepFails
    (records.map fun r => (createFrontendPrincipleSummary r, r)) 0 k
    (by simpa using hk) (by simpa using hf)
    (fun j hj => by simpa using hmin j hj)
  refine ⟨?_, ?_, ?_⟩
  · rw [hwl.1, ← List.map_take, List.map_map]
    rfl
  · rw [hwl.2]
    simp
  · simp

/-- Witness: the amended C1 at `envC1` (first write fails): nothing stays
written and the write error for record 0 is logged. -/
theorem seed_write_failure_stops_loop_witness :
    (seedDatabase envC1 []).store =
      (([exampleRecord, exampleRecord2].take 0).map (fun r =>
        ⟨createFrontendPrincipleSummary r,
          envC1.embed (createFrontendPrincipleSummary r), r⟩)) ∧
    (seedDatabase envC1 []).loggedError = some (SeedErr.writeError 0) ∧
    Ev.disconnect ∈ (seedDatabase envC1 []).events :=
  seed_write_failure_stops_loop envC1 [] [exampleRecord, exampleRecord2] 0
    rfl rfl (by decide) (by decide) rfl
    (fun j hj => absurd hj (Nat.not_lt_zero j))

/-- C2: false as stated — `seedDatabase` has no mode parameter: even a
single successful run against a pre-populated collection deletes the
unrelated pre-existing document, so no append behaviour exists. -/
theorem seed_mode_counterexample :
    (seedDatabase envOk [d0]).loggedError = none ∧
    (seedDatabase envOk [d0]).store.length = 1 ∧
    d0 ∉ (seedDatabase envOk [d0]).store := by
  decide

/-- C2 (amended): the seed operation takes no mode; every run behaves as
replace mode: once the connection is up it clears the collection, so the
final store is exactly the run's own successful writes, independent of the
collection's prior contents. -/
theorem seed_always_replaces (env : SeedEnv) (init : List StoredDoc)
    (hc : env.connectOk = true) (hp : env.pingOk = true) :
    (seedDatabase env init).store = (seedDatabase env []).store := by
  cases hg : generateSyntheticData env.modelResponse with
  | none => simp [seedDatabase, hc, hp, hg]
  | some records =>
    rw [seedDatabase_run env init records hc hp hg,
      seedDatabase_run env [] records hc hp hg]

/-- Witness: the amended C2 at `envOk` on a pre-populated collection. -/
theorem seed_always_replaces_witness :
    (seedDatabase envOk [d0]).store = (seedDatabase envOk []).store :=
  seed_always_replaces envOk [d0] rfl rfl

/-- C3: for every document the run stores, the embedding vector is the
embedding capability applied to exactly that document's stored text, and
that text is the Summarizer's output for the document's source record. -/
theorem seed_embedding_pairing (env : SeedEnv) (init : List StoredDoc)
    (hc : env.connectOk = true) (hp : env.pingOk = true) :
    ∀ d ∈ (seedDatabase env init).store,
      d.embedding = env.embed d.embedding_text ∧
      d.embedding_text = createFrontendPrincipleSummary d.metadata := by
  intro d hd
  cases hg : generateSyntheticData env.modelResponse with
  | none =>
    simp [seedDatabase, hc, hp, hg] at hd
  | some records =>
    rw [seedDatabase_run env init records hc hp hg] at hd
    obtain ⟨pr, hpr, hdq⟩ := writeLoop_store_mem env.embed env.stepFails _ 0 d hd
    obtain ⟨r, hr, hpr2⟩ := List.mem_map.mp hpr
    subst hdq
    rw [← hpr2]
    exact ⟨rfl, rfl⟩

set_option maxRecDepth 8192 in
/-- Witness: C3 with the stub hash embedding at `envOk`'s single written
document. -/
theorem seed_embedding_pairing_witness :
    docOk.embedding = envOk.embed docOk.embedding_text ∧
    docOk.embedding_text = createFrontendPrincipleSummary docOk.metadata :=
  seed_embedding_pairing envOk [] rfl rfl docOk (by decide)

/-- C4: false as stated — an empty array parses successfully, so `generate`
succeeds with an empty record batch, and the seed run proceeds without any
generation error. -/
theorem generate_empty_batch_counterexample :
    generateSyntheticData (some (Json.arr [])) = some [] ∧
    (seedDatabase envEmptyBatch []).loggedError = none := by
  decide

/-- C4 (amended): `generate` fails when the response is unparsable, when it
is not an array, or when any element fails validation; but an empty array
is accepted, so `generate` can succeed with zero records. -/
theorem generate_failure_policy :
    generateSyntheticData none = none ∧
    (∀ items x, x ∈ items → parseFrontendPrinciple x = none →
      generateSyntheticData (some (Json.arr items)) = none) ∧
    (∀ j : Json, (∀ items, j ≠ Json.arr items) →
      generateSyntheticData (some j) = none) ∧
    generateSyntheticData (some (Json.arr [])) = some [] := by
  refine ⟨rfl, ?_, ?_, rfl⟩
  · intro items x hx hfail
    show parseAllRecords items = none
    exact parseAllRecords_mem_none items x hx hfail
  · intro j hj
    cases j with
    | null => rfl
    | bool b => rfl
    | num n => rfl
    | str s => rfl
    | arr items => exact absurd rfl (hj items)
    | obj fs => rfl

/-- Witness: the amended C4 on a one-element batch whose element is a bare
number. -/
theorem generate_failure_policy_witness :
    generateSyntheticData (some (Json.arr [Json.num 0])) = none :=
  generate_failure_policy.2.1 [Json.num 0] (Json.num 0) (by simp) rfl

/-- C5: false as stated — a batch holding one fully valid record and one
malformed sibling is rejected wholesale: the valid record is not returned
and no per-record result is collected. -/
theorem batch_sibling_counterexample :
    parseFrontendPrinciple (recordToJson exampleRecord) = some exampleRecord ∧
    parseFrontendPrincipleArray
      (Json.arr [recordToJson exampleRecord, Json.num 7]) = none := by
  decide

/-- C5 (amended): batch validation is all-or-nothing: one element's schema
failure makes the whole array parse fail (no valid siblings are returned
and nothing is collected into a report); only when every element is valid
does the parse succeed, returning all of them. -/
theorem batch_validation_all_or_nothing :
    (∀ items x, x ∈ items → parseFrontendPrinciple x = none →
      parseFrontendPrincipleArray (Json.arr items) = none) ∧
    (∀ items, (∀ x ∈ items, (parseFrontendPrinciple x).isSome = true) →
      ∃ rs, parseFrontendPrincipleArray (Json.arr items) = some rs ∧
        rs.length = items.length) := by
  constructor
  · intro items x hx hfail
    exact parseAllRecords_mem_none items x hx hfail
  · intro items h
    exact parseAllRecords_all_some items h

/-- Witness: the amended C5 on a concrete mixed batch and a concrete
all-valid batch. -/
theorem batch_validation_all_or_nothing_witness :
    parseFrontendPrincipleArray
      (Json.arr [Json.null, recordToJson exampleRecord]) = none :=
  batch_validation_all_or_nothing.1 [Json.null, recordToJson exampleRecord]
    Json.null (by simp) rfl

/-- C6: the schema validator accepts any candidate object with every
required field present and correctly typed, returning its field values
unchanged; acceptance forces every required field to be present with the
declared type and exactly the returned value (so a missing or wrongly
typed field, e.g. a number under `name`, is a hard rejection — no
coercion), and non-objects are rejected. -/
theorem validate_schema_completeness :
    (∀ r : FrontendPrinciple,
      parseFrontendPrinciple (recordToJson r) = some r) ∧
    (∀ fs p, parseFrontendPrinciple (Json.obj fs) = some p →
      getStr fs "principle_id" = some p.principle_id ∧
      getStr fs "name" = some p.name ∧
      getStr fs "description" = some p.description ∧
      getStrList fs "keyConcepts" = some p.keyConcepts ∧
      getStrList fs "designGuidelines" = some p.designGuidelines ∧
      getStrList fs "commonPitfalls" = some p.commonPitfalls ∧
      getStrList fs "bestPractices" = some p.bestPractices ∧
      getStrList fs "relevantTechnologies" = some p.relevantTechnologies ∧
      getStr fs "notes" = some p.notes) ∧
    (∀ j p, parseFrontendPrinciple j = some p → ∃ fs, j = Json.obj fs) ∧
    (∀ fs n, lookupField fs "name" = some (Json.num n) →
      parseFrontendPrinciple (Json.obj fs) = none) := by
  refine ⟨parse_recordToJson, parseFrontendPrinciple_obj_some, ?_, ?_⟩
  · intro j p h
    cases j with
    | null => simp [parseFrontendPrinciple] at h
    | bool b => simp [parseFrontendPrinciple] at h
    | num n => simp [parseFrontendPrinciple] at h
    | str s => simp [parseFrontendPrinciple] at h
    | arr l => simp [parseFrontendPrinciple] at h
    | obj fs => exact ⟨fs, rfl⟩
  · intro fs n hlk
    cases hres : parseFrontendPrinciple (Json.obj fs) with
    | none => rfl
    | some p =>
      have hname := (parseFrontendPrinciple_obj_some fs p hres).2.1
      simp [getStr, hlk, asString] at hname

/-- Witness: C6 rejecting a numeric `name` at a concrete object. -/
theorem validate_schema_completeness_witness :
    parseFrontendPrinciple (Json.obj [("name", Json.num 3)]) = none :=
  validate_schema_completeness.2.2.2 [("name", Json.num 3)] 3 rfl

lemma renderListField_eq (label pre : String) (h : label ++ ": " = pre)
    (items : List String) :
    renderListField label items = pre ++ String.intercalate ", " items := by
  simp only [renderListField]
  rw [← h]

/-- C7: the summarizer is a pure function of the record agreeing everywhere
with the spec's fixed-order rendering (name+id+description, each list field
as "Label: comma-joined items" preserving item order, then notes), and on
the spec's example record it yields exactly the expected paragraph. -/
theorem summarize_deterministic_format :
    (∀ r, createFrontendPrincipleSummary r = summarizeSpec r) ∧
    createFrontendPrincipleSummary exampleRecord =
      "Consistency (p1): .... Key Concepts: A, B. Design Guidelines: G1. Common Pitfalls: . Best Practices: BP1. Technologies: Tech1. Notes: n" := by
  constructor
  · intro r
    simp only [createFrontendPrincipleSummary, summarizeSpec]
    rw [renderListField_eq "Key Concepts" "Key Concepts: " (by decide),
      renderListField_eq "Design Guidelines" "Design Guidelines: " (by decide),
      renderListField_eq "Common Pitfalls" "Common Pitfalls: " (by decide),
      renderListField_eq "Best Practices" "Best Practices: " (by decide),
      renderListField_eq "Technologies" "Technologies: " (by decide)]
  · decide

/-- Witness: C7 instantiated at the second concrete record. -/
theorem summarize_deterministic_format_witness :
    createFrontendPrincipleSummary exampleRecord2 = summarizeSpec exampleRecord2 :=
  summarize_deterministic_format.1 exampleRecord2

/-- C8: false as stated — a non-2xx status with a JSON body is never
detected (`response.ok` is unchecked): on a 500 response whose body parses,
the UI appends the body's `response` field as a normal agent message and no
generic failure message appears in the transcript. -/
theorem chat_non2xx_counterexample :
    sendMessage st0 badOutcome =
      ⟨[⟨Sender.user, some "hi"⟩, ⟨Sender.agent, some "oops"⟩], "", none,
        false⟩ ∧
    ChatMessage.mk Sender.agent (some "Sorry, there was an error.") ∉
      (sendMessage st0 badOutcome).messages := by
  decide

/-- C8 (amended): on a network failure or a body that fails JSON parsing,
the UI appends the user's message and exactly one generic failure message;
a non-2xx response with a parseable body is instead treated like success.
In every case the previously held transcript is preserved as a prefix and
loading is reset, leaving the input usable for a retry. -/
theorem chat_failure_handling (st : ChatState) (out : FetchOutcome)
    (h : ¬ jsTrim st.input = "") :
    ((out = FetchOutcome.networkError ∨
        (∃ s, out = FetchOutcome.response s none)) →
      (sendMessage st out).messages =
        st.messages ++ [⟨Sender.user, some (jsTrim st.input)⟩,
          ⟨Sender.agent, some "Sorry, there was an error."⟩]) ∧
    (∃ rest, (sendMessage st out).messages = st.messages ++ rest) ∧
    (sendMessage st out).isLoading = false := by
  refine ⟨?_, ?_, ?_⟩
  · intro hout
    rcases hout with rfl | ⟨s, rfl⟩
    · simp [sendMessage, h]
    · simp [sendMessage, h]
  · cases out with
    | networkError =>
      exact ⟨[⟨Sender.user, some (jsTrim st.input)⟩,
        ⟨Sender.agent, some "Sorry, there was an error."⟩],
        by simp [sendMessage, h]⟩
    | response s body =>
      cases body with
      | none =>
        exact ⟨[⟨Sender.user, some (jsTrim st.input)⟩,
          ⟨Sender.agent, some "Sorry, there was an error."⟩],
          by simp [sendMessage, h]⟩
      | some data =>
        refine ⟨[⟨Sender.user, some (jsTrim st.input)⟩,
          ⟨Sender.agent, data.response⟩], ?_⟩
        cases hcond : (!truthyStr st.threadId && truthyStr data.threadId) with
        | true => simp [sendMessage, h, hcond]
        | false => simp [sendMessage, h, hcond]
  · cases out with
    | networkError => simp [sendMessage, h]
    | response s body =>
      cases body with
      | none => simp [sendMessage, h]
      | some data =>
        cases hcond : (!truthyStr st.threadId && truthyStr data.threadId) with
        | true => simp [sendMessage, h, hcond]
        | false => simp [sendMessage, h, hcond]

/-- Witness: the amended C8 at the concrete initial state on a network
failure. -/
theorem chat_failure_handling_witness :
    ((FetchOutcome.networkError = FetchOutcome.networkError ∨
        (∃ s, FetchOutcome.networkError = FetchOutcome.response s none)) →
      (sendMessage st0 FetchOutcome.networkError).messages =
        st0.messages ++ [⟨Sender.user, some (jsTrim st0.input)⟩,
          ⟨Sender.agent, some "Sorry, there was an error."⟩]) ∧
    (∃ rest, (sendMessage st0 FetchOutcome.networkError).messages =
      st0.messages ++ rest) ∧
    (sendMessage st0 FetchOutcome.networkError).isLoading = false :=
  chat_failure_handling st0 FetchOutcome.networkError (by decide)

/-- C9: every `seedDatabase` run — connection failure, ping failure,
generation failure, per-record write failure, or full success — releases
the store connection exactly once. -/
theorem seed_disconnect_exactly_once (env : SeedEnv) (init : List StoredDoc) :
    countDisconnect (seedDatabase env init).events = 1 := by
  obtain ⟨c, p, mr, emb, sf⟩ := env
  cases c with
  | false => simp [seedDatabase, countDisconnect]
  | true =>
    cases p with
    | false => simp [seedDatabase, countDisconnect]
    | true =>
      cases hg : generateSyntheticData mr with
      | none => simp [seedDatabase, hg, countDisconnect]
      | some records =>
        simp [seedDatabase, hg, countDisconnect_append, countDisconnect,
          writeLoop_countDisconnect]

/-- C10: the collection is cleared before generation is attempted, so when
the model call or parsing fails the run still resolves (after logging a
generation error and disconnecting) with the collection left empty — prior
documents are not restored and nothing new is written. -/
theorem seed_clear_before_generate (env : SeedEnv) (init : List StoredDoc)
    (hc : env.connectOk = true) (hp : env.pingOk = true)
    (hg : generateSyntheticData env.modelResponse = none) :
    seedDatabase env init =
      ⟨[Ev.connect, Ev.ping, Ev.clear, Ev.generate, Ev.disconnect], [],
        some SeedErr.generationError⟩ := by
  simp [seedDatabase, hc, hp, hg]

/-- Witness: C10 at a pre-populated collection with an unparsable model
response. -/
theorem seed_clear_before_generate_witness :
    seedDatabase envGenFail [d0] =
      ⟨[Ev.connect, Ev.ping, Ev.clear, Ev.generate, Ev.disconnect], [],
        some SeedErr.generationError⟩ :=
  seed_clear_before_generate envGenFail [d0] rfl rfl rfl
